import Mathlib

/-!
Verification of `bme280_mqtt_daemon.py`: a shallow embedding of the daemon's
data model, calibration/publish function, MQTT connect handler and the main
sample/validate/publish loop, together with theorems settling the spec claims.

Sensor values and calibration offsets are modelled as exact rationals (`ℚ`);
Python's `round(x, n)` is modelled as round-half-to-even on the scaled value.
Wall-clock seconds (`my_time = int(round(time.time()))`) are modelled as `ℤ`.
Observable side effects (MQTT publishes, sensor resets, disconnect) are
collected in event lists.
-/

namespace BME280

/-- `SEALEVEL_MIN = -999`: sentinel meaning "sea-level correction disabled". -/
def SEALEVEL_MIN : ℚ := -999

/-- `SLEEP_TIME = 1` second: the poll interval. -/
def SLEEP_TIME : ℕ := 1

/-- Round-half-to-even to an integer (Python's banker rounding on exact input). -/
def roundHalfEven (q : ℚ) : ℤ :=
  if q - ⌊q⌋ < 1/2 then ⌊q⌋
  else if 1/2 < q - ⌊q⌋ then ⌊q⌋ + 1
  else if ⌊q⌋ % 2 = 0 then ⌊q⌋ else ⌊q⌋ + 1

/-- Python's `round(q, n)`: round to `n` decimal places, ties to even. -/
def pyRound (q : ℚ) (n : ℕ) : ℚ :=
  (roundHalfEven (q * 10 ^ n) : ℚ) / 10 ^ n

/-- The `Options` object: calibration offsets, elevation and payload-key
prefix (`options.section` in the source; `section` is a Lean keyword). -/
structure Options where
  toffset : ℚ := 0
  hoffset : ℚ := 0
  poffset : ℚ := 0
  elevation : ℚ := SEALEVEL_MIN
  sectionName : String := "BME280"
deriving DecidableEq, Repr

/-- The `SensorData` object: one raw reading from the BME280. -/
structure SensorData where
  temperature : ℚ := 0
  humidity : ℚ := 0
  pressure : ℚ := 0
deriving DecidableEq, Repr

/-- `publish_mqtt`: the JSON state payload built from a reading and the
options, as an association list in insertion order.  Mirrors lines 133-168
of the source: offsets are added, humidity/temperature are rounded to 1
decimal, pressures to 2; the `<section>_sealevel` key is inserted only when
`options.elevation > SEALEVEL_MIN`, in which case the value is
`press_A + elevation / 9.2`. -/
def publish_mqtt_data (sensor_data : SensorData) (options : Options) :
    List (String × ℚ) :=
  let hum := sensor_data.humidity + options.hoffset
  let temp_C := sensor_data.temperature + options.toffset
  let press_A := sensor_data.pressure + options.poffset
  let press_S :=
    if options.elevation > SEALEVEL_MIN then press_A + options.elevation / (9.2 : ℚ)
    else press_A
  [(options.sectionName ++ "_humidity", pyRound hum 1),
   (options.sectionName ++ "_temperature", pyRound temp_C 1),
   (options.sectionName ++ "_pressure", pyRound press_A 2)]
  ++ (if options.elevation > SEALEVEL_MIN then
        [(options.sectionName ++ "_sealevel", pyRound press_S 2)]
      else [])

/-- The four metrics the `on_connect` handler can announce. -/
inductive Metric
  | temperature
  | humidity
  | pressure
  | sealevel
deriving DecidableEq, Repr

/-- Observable MQTT actions of the `on_connect` handler. -/
inductive ConnectEvent
  /-- `client.publish(config_topic_of_metric, json, retain)` -/
  | publishConfig (m : Metric) (retain : Bool)
  /-- `client.publish(availability_topic, "online", retain)` -/
  | publishOnline (retain : Bool)
deriving DecidableEq, Repr

/-- The `sensor_configs` list of `on_connect` (lines 97-106): temperature,
humidity and pressure always; sealevel appended only when
`userdata.elevation > SEALEVEL_MIN`. -/
def sensor_configs (userdata : Options) : List Metric :=
  [Metric.temperature, Metric.humidity, Metric.pressure]
  ++ (if userdata.elevation > SEALEVEL_MIN then [Metric.sealevel] else [])

/-- `on_connect` (lines 89-125): on a non-zero return code nothing is
published; on success each configured metric's retained descriptor is
published, each followed by the retained `"online"` availability message
(the `online` publish sits inside the `for` loop in the source). -/
def on_connect (return_code : ℤ) (userdata : Options) : List ConnectEvent :=
  if return_code ≠ 0 then []
  else
    (sensor_configs userdata).flatMap fun m =>
      [ConnectEvent.publishConfig m true, ConnectEvent.publishOnline true]

/-- Observable actions of one iteration of the main loop and of shutdown. -/
inductive LoopEvent
  /-- `sensor._is_setup = False; sensor.setup(mode=...)` — the fault reset. -/
  | reset
  /-- `client.publish(state_topic, json.dumps(data))` — a state publish. -/
  | publishState (data : List (String × ℚ))
  /-- `client.publish(availability_topic, "offline", retain)` -/
  | publishOffline (retain : Bool)
  /-- `client.loop_stop(); client.disconnect()` -/
  | disconnect
deriving DecidableEq, Repr

/-- One iteration of the `while read_loop` body (lines 304-338), given the
`first_read` flag, the current rounded wall-clock time `t` and the fresh
reading `d`.  Returns the new `first_read` flag and the events emitted.
If `not first_read and pressure < 800` the sensor is reset and the
iteration `continue`s; otherwise, at a minute boundary (`t % 60 == 0`) the
reading is published unless `first_read`, and `first_read` is cleared. -/
def loopStep (options : Options) (first_read : Bool) (t : ℤ) (d : SensorData) :
    Bool × List LoopEvent :=
  if ¬first_read ∧ d.pressure < 800 then
    (first_read, [LoopEvent.reset])
  else if t % 60 = 0 then
    (false,
      if ¬first_read then [LoopEvent.publishState (publish_mqtt_data d options)]
      else [])
  else
    (first_read, [])

/-- The loop run over a list of (time, reading) iterations, threading the
`first_read` flag and concatenating the emitted events. -/
def runLoop (options : Options) (first_read : Bool) :
    List (ℤ × SensorData) → List LoopEvent
  | [] => []
  | (t, d) :: rest =>
      let s := loopStep options first_read t d
      s.2 ++ runLoop options s.1 rest

/-- `first_read` flag after running the given iterations from flag `fr`. -/
def frAfter (options : Options) (fr : Bool) (inputs : List (ℤ × SensorData)) :
    Bool :=
  inputs.foldl (fun fr p => (loopStep options fr p.1 p.2).1) fr

/-- Whether a loop event is a state publish. -/
def isPublish : LoopEvent → Bool
  | LoopEvent.publishState _ => true
  | _ => false

/-- Number of state publishes in a run. -/
def publishCount (options : Options) (fr : Bool)
    (inputs : List (ℤ × SensorData)) : ℕ :=
  (runLoop options fr inputs).countP isPublish

/-- Whether one iteration publishes a state message. -/
def stepPublishes (options : Options) (first_read : Bool) (t : ℤ)
    (d : SensorData) : Bool :=
  (loopStep options first_read t d).2.any isPublish

/-- The loop with the `while read_loop` check made explicit: each iteration
carries the value of the `read_loop` flag as observed at the top of the
iteration; the first iteration that observes `false` runs nothing and the
loop ends (`continue`-free exit, lines 304 and 340-349). -/
def runLoopCancel (options : Options) (first_read : Bool) :
    List (Bool × ℤ × SensorData) → List LoopEvent
  | [] => []
  | (flag, t, d) :: rest =>
      if flag then
        let s := loopStep options first_read t d
        s.2 ++ runLoopCancel options s.1 rest
      else []

/-- The signals `start_daemon` maps to `receive_signal` (lines 186-191). -/
inductive DaemonSignal
  | SIGHUP
  | SIGINT
  | SIGQUIT
  | SIGTERM
deriving DecidableEq, Repr

/-- Conventional POSIX numbers of the mapped signals. -/
def signalNumber : DaemonSignal → ℕ
  | DaemonSignal.SIGHUP => 1
  | DaemonSignal.SIGINT => 2
  | DaemonSignal.SIGQUIT => 3
  | DaemonSignal.SIGTERM => 15

/-- `receive_signal` (lines 80-87): sets the global `read_loop` flag to
`False`, whatever its previous value and whichever signal arrived. -/
def receive_signal (signal_number : ℕ) (read_loop : Bool) : Bool :=
  false

/-- `signal_map` applied to a mapped signal: the new value of `read_loop`. -/
def signal_map (s : DaemonSignal) (read_loop : Bool) : Bool :=
  receive_signal (signalNumber s) read_loop

/-- The observable tail of `start_bme280_sensor` (lines 304-349) followed by
`sys.exit(0)` (line 383): run the loop from `first_read = True`, then
publish the retained `"offline"` availability message, stop and disconnect
the client; the process exit status is 0. -/
def start_bme280_sensor_run (options : Options)
    (inputs : List (Bool × ℤ × SensorData)) : List LoopEvent × ℕ :=
  (runLoopCancel options true inputs
      ++ [LoopEvent.publishOffline true, LoopEvent.disconnect], 0)

/-- Credential setup (lines 249-254): `username_pw_set` is called with the
two configured values only when the `username` and the `password` keys are
both present in the configuration section; otherwise it is not called at
all.  `conf k` is the value of key `k` in the section, when present. -/
def setup_credentials (conf : String → Option String) :
    Option (String × String) :=
  match conf "username", conf "password" with
  | some u, some p => some (u, p)
  | _, _ => none

/-! Concrete data used by witnesses and counterexamples. -/

/-- Options with zero offsets, sea-level correction disabled, section `X`. -/
def optsX : Options :=
  { toffset := 0, hoffset := 0, poffset := 0, elevation := SEALEVEL_MIN,
    sectionName := "X" }

/-- Same options with `elevation = 92`. -/
def optsX92 : Options := { optsX with elevation := 92 }

/-- The reading `{temperature: 20.0, humidity: 50.0, pressure: 1013.0}`. -/
def r20 : SensorData := { temperature := 20, humidity := 50, pressure := 1013 }

/-- An implausible reading: pressure 700 hPa, below the 800 hPa floor. -/
def r700 : SensorData := { r20 with pressure := 700 }

/-! Helper lemmas about the loop's `first_read` flag. -/

/-- Once `first_read` is `False` it stays `False`: no branch of the loop
body ever sets it back to `True`. -/
theorem loopStep_fst_false (options : Options) (t : ℤ) (d : SensorData) :
    (loopStep options false t d).1 = false := by
  simp only [loopStep]
  split_ifs <;> rfl

/-- `first_read = False` is absorbing across a whole run. -/
theorem frAfter_false (options : Options) (inputs : List (ℤ × SensorData)) :
    frAfter options false inputs = false := by
  induction inputs with
  | nil => rfl
  | cons p rest ih =>
      simpa [frAfter, loopStep_fst_false] using ih

/-- While no iteration has hit a minute boundary, `first_read` stays `True`
and the loop emits no event at all (no publish and, because the fault check
requires `not first_read`, no reset either). -/
theorem runLoop_true_no_boundary (options : Options)
    (inputs : List (ℤ × SensorData)) (hb : ∀ p ∈ inputs, p.1 % 60 ≠ 0) :
    frAfter options true inputs = true ∧ runLoop options true inputs = [] := by
  induction inputs with
  | nil => exact ⟨rfl, rfl⟩
  | cons p rest ih =>
      have hp : p.1 % 60 ≠ 0 := hb p (List.mem_cons_self p rest)
      have hp' : ¬(60 ∣ p.1) := by omega
      have hrest : ∀ q ∈ rest, q.1 % 60 ≠ 0 := fun q hq =>
        hb q (List.mem_cons_of_mem p hq)
      have h := ih hrest
      constructor
      · simpa [frAfter, loopStep, hp, hp'] using h.1
      · simpa [runLoop, loopStep, hp, hp'] using h.2

/-- C1: for a non-warm-up reading (`first_read = False`), the loop body
takes the fault path — exactly one sensor reset, no publish, flag
unchanged — if and only if the reading's pressure is strictly below
800 hPa; a non-warm-up reading with pressure ≥ 800 proceeds to the normal
cadence evaluation (publish exactly at a minute boundary). -/
theorem fault_iff_low_pressure (options : Options) (t : ℤ) (d : SensorData) :
    (loopStep options false t d = (false, [LoopEvent.reset])
      ↔ d.pressure < 800)
    ∧ (800 ≤ d.pressure →
        loopStep options false t d =
          (false,
            if t % 60 = 0 then
              [LoopEvent.publishState (publish_mqtt_data d options)]
            else [])) := by
  constructor
  · constructor
    · intro h
      by_contra hp
      push_neg at hp
      simp [loopStep, not_lt.mpr hp] at h
      split at h <;> simp_all
    · intro hp
      simp [loopStep, hp]
  · intro hp
    simp only [loopStep, not_lt.mpr hp, and_false, if_false,
      not_false_eq_true, true_and, false_and]
    split <;> simp

/-- Witness for C1: a non-warm-up 1013 hPa reading at a minute boundary is
not treated as a fault and is published. -/
theorem fault_iff_low_pressure_witness :
    loopStep optsX false 60 r20 =
      (false, [LoopEvent.publishState (publish_mqtt_data r20 optsX)]) := by
  have h := (fault_iff_low_pressure optsX 60 r20).2 (by norm_num [r20])
  rw [h]
  norm_num

/-- C2 counterexample: the first reading taken after a sensor reset CAN be
published.  Concrete run: at time 0 the warm-up read is consumed (minute
boundary, not published); at time 59 an implausible 700 hPa reading resets
the sensor; the very next reading, at time 60, is published. -/
theorem published_right_after_reset :
    runLoop optsX true [(0, r20), (59, r700), (60, r20)]
      = [LoopEvent.reset,
         LoopEvent.publishState (publish_mqtt_data r20 optsX)] := by
  norm_num [runLoop, loopStep, optsX, r20, r700]

/-- C2 amended: the first reading taken after process startup is never
published, regardless of its value or of the cadence boundary (the claim's
extension to readings after a reset is refuted by
the run above: a fault-triggered reset does not re-arm the warm-up flag).
Here: the startup iteration, which runs with `first_read = True`,
contributes no publish to the run's event list. -/
theorem startup_first_read_not_published (options : Options) (t : ℤ)
    (d : SensorData) (rest : List (ℤ × SensorData)) :
    publishCount options true ((t, d) :: rest)
      = (runLoop options (loopStep options true t d).1 rest).countP isPublish := by
  have hhead : (loopStep options true t d).2.countP isPublish = 0 := by
    simp only [loopStep]
    split_ifs <;> simp_all [isPublish]
  simp [publishCount, runLoop, List.countP_append, hhead]

/-- C6: after a fault-triggered reset the warm-up flag is unchanged (only
the true startup read carries the warm-up exemption), so the very next
reading is eligible for normal evaluation and is published at a minute
boundary. -/
theorem next_reading_after_reset_published (options : Options) (t t' : ℤ)
    (d d' : SensorData) (hfault : d.pressure < 800) (hok : 800 ≤ d'.pressure)
    (hb : t' % 60 = 0) :
    (loopStep options false t d).1 = false
    ∧ runLoop options false [(t, d), (t', d')]
        = [LoopEvent.reset,
           LoopEvent.publishState (publish_mqtt_data d' options)] := by
  refine ⟨?_, ?_⟩
  · simp [loopStep, hfault]
  · simp [runLoop, loopStep, hfault, hb, not_lt.mpr hok]

/-- Witness for C6: fault at time 59, next reading at the minute boundary
60 is published. -/
theorem next_reading_after_reset_published_witness :
    (loopStep optsX false 59 r700).1 = false
    ∧ runLoop optsX false [(59, r700), (60, r20)]
        = [LoopEvent.reset,
           LoopEvent.publishState (publish_mqtt_data r20 optsX)] :=
  next_reading_after_reset_published optsX 59 60 r700 r20
    (by norm_num [r700]) (by norm_num [r20]) (by decide)

/-- C7: end-to-end payloads.  With zero offsets and elevation disabled the
reading `{20.0, 50.0, 1013.0}` publishes exactly
`{"X_humidity": 50.0, "X_temperature": 20.0, "X_pressure": 1013.0}` with no
sealevel key; with `elevation = 92` the payload additionally carries
`"X_sealevel": 1023.0 = 1013.0 + 92 / 9.2`. -/
theorem end_to_end_payloads :
    publish_mqtt_data r20 optsX
      = [("X_humidity", 50), ("X_temperature", 20), ("X_pressure", 1013)]
    ∧ publish_mqtt_data r20 optsX92
      = [("X_humidity", 50), ("X_temperature", 20), ("X_pressure", 1013),
         ("X_sealevel", 1023)] := by
  constructor <;>
    norm_num [publish_mqtt_data, pyRound, roundHalfEven, optsX, optsX92,
      r20, SEALEVEL_MIN] <;>
    decide

/-- Appending different suffixes to the same string yields different
strings (used to tell the payload keys apart for any section name). -/
theorem string_append_ne (s a b : String) (h : a ≠ b) : s ++ a ≠ s ++ b := by
  intro hab
  apply h
  have h2 := congrArg String.data hab
  simp only [String.data_append] at h2
  exact String.ext (List.append_cancel_left h2)

/-- C4: the published payload is the pure image of the reading and the
options: the `<section>_humidity` key carries the humidity plus `hoffset`
rounded to 1 decimal, `<section>_temperature` the temperature plus
`toffset` rounded to 1 decimal, `<section>_pressure` the pressure plus
`poffset` rounded to 2 decimals; the `<section>_sealevel` key is present
iff the elevation exceeds the disabled sentinel, in which case it carries
station pressure plus `elevation / 9.2` rounded to 2 decimals. -/
theorem derive_fields (d : SensorData) (o : Options) :
    ((o.sectionName ++ "_humidity", pyRound (d.humidity + o.hoffset) 1)
        ∈ publish_mqtt_data d o)
    ∧ ((o.sectionName ++ "_temperature", pyRound (d.temperature + o.toffset) 1)
        ∈ publish_mqtt_data d o)
    ∧ ((o.sectionName ++ "_pressure", pyRound (d.pressure + o.poffset) 2)
        ∈ publish_mqtt_data d o)
    ∧ ((∃ v, (o.sectionName ++ "_sealevel", v) ∈ publish_mqtt_data d o)
        ↔ SEALEVEL_MIN < o.elevation)
    ∧ (SEALEVEL_MIN < o.elevation →
        (o.sectionName ++ "_sealevel",
            pyRound (d.pressure + o.poffset + o.elevation / (9.2 : ℚ)) 2)
          ∈ publish_mqtt_data d o) := by
  refine ⟨?_, ?_, ?_, ⟨?_, ?_⟩, ?_⟩
  · simp [publish_mqtt_data]
  · simp [publish_mqtt_data]
  · simp [publish_mqtt_data]
  · rintro ⟨v, hv⟩
    simp only [publish_mqtt_data, List.mem_append, List.mem_cons,
      List.not_mem_nil, or_false, Prod.mk.injEq] at hv
    rcases hv with (⟨hk, _⟩ | ⟨hk, _⟩ | ⟨hk, _⟩) | hv
    · exact absurd hk (string_append_ne _ _ _ (by decide))
    · exact absurd hk (string_append_ne _ _ _ (by decide))
    · exact absurd hk (string_append_ne _ _ _ (by decide))
    · by_contra hel
      rw [if_neg (by simpa [gt_iff_lt] using hel)] at hv
      simp at hv
  · intro hel
    refine ⟨pyRound (d.pressure + o.poffset + o.elevation / (9.2 : ℚ)) 2, ?_⟩
    simp [publish_mqtt_data, hel]
  · intro hel
    simp [publish_mqtt_data, hel]

/-- Witness for C4: the sealevel field of the elevation-92 options at the
concrete reading. -/
theorem derive_fields_witness :
    (optsX92.sectionName ++ "_sealevel",
        pyRound (r20.pressure + optsX92.poffset
          + optsX92.elevation / (9.2 : ℚ)) 2)
      ∈ publish_mqtt_data r20 optsX92 :=
  (derive_fields r20 optsX92).2.2.2.2
    (by norm_num [optsX92, optsX, SEALEVEL_MIN])

/-- C5 counterexample: with the sea-level correction disabled
(`elevation = SEALEVEL_MIN`), a successful connection announces only three
descriptors — the sealevel descriptor is not published, so not all four
metrics are announced on every transition into Connected. -/
theorem sealevel_descriptor_absent_when_disabled :
    ConnectEvent.publishConfig Metric.sealevel true ∉ on_connect 0 optsX := by
  norm_num [on_connect, sensor_configs, optsX, SEALEVEL_MIN]
  decide

/-- C5 amended: on every invocation of the connect handler with a zero
return code — the handler is bound once and runs on every transition into
Connected, reconnects included — the retained descriptors of temperature,
humidity and pressure and the retained "online" availability message are
published, and the retained sealevel descriptor is published iff the
elevation exceeds the disabled sentinel. -/
theorem discovery_on_connect (userdata : Options) (rc : ℤ) (h : rc = 0) :
    ConnectEvent.publishConfig Metric.temperature true ∈ on_connect rc userdata
    ∧ ConnectEvent.publishConfig Metric.humidity true ∈ on_connect rc userdata
    ∧ ConnectEvent.publishConfig Metric.pressure true ∈ on_connect rc userdata
    ∧ ConnectEvent.publishOnline true ∈ on_connect rc userdata
    ∧ (ConnectEvent.publishConfig Metric.sealevel true ∈ on_connect rc userdata
        ↔ SEALEVEL_MIN < userdata.elevation) := by
  subst h
  have h0 : on_connect 0 userdata
      = (sensor_configs userdata).flatMap fun m =>
          [ConnectEvent.publishConfig m true, ConnectEvent.publishOnline true] := by
    simp [on_connect]
  by_cases hel : SEALEVEL_MIN < userdata.elevation
  · have hs : sensor_configs userdata
        = [Metric.temperature, Metric.humidity, Metric.pressure,
           Metric.sealevel] := by
      simp [sensor_configs, hel]
    rw [h0, hs]
    exact ⟨by decide, by decide, by decide, by decide,
      ⟨fun _ => hel, fun _ => by decide⟩⟩
  · have hs : sensor_configs userdata
        = [Metric.temperature, Metric.humidity, Metric.pressure] := by
      simp [sensor_configs, hel]
    rw [h0, hs]
    exact ⟨by decide, by decide, by decide, by decide,
      ⟨fun hmem => absurd hmem (by decide), fun hle => absurd hle hel⟩⟩

/-- Witness for C5 amended: with elevation 92 all four descriptors and the
online message are published on connect. -/
theorem discovery_on_connect_witness :
    ConnectEvent.publishConfig Metric.temperature true ∈ on_connect 0 optsX92
    ∧ ConnectEvent.publishConfig Metric.humidity true ∈ on_connect 0 optsX92
    ∧ ConnectEvent.publishConfig Metric.pressure true ∈ on_connect 0 optsX92
    ∧ ConnectEvent.publishOnline true ∈ on_connect 0 optsX92
    ∧ (ConnectEvent.publishConfig Metric.sealevel true ∈ on_connect 0 optsX92
        ↔ SEALEVEL_MIN < optsX92.elevation) :=
  discovery_on_connect optsX92 0 rfl

/-- A run over a concatenation splits at the flag reached in between. -/
theorem runLoop_append (options : Options) (fr : Bool)
    (l₁ l₂ : List (ℤ × SensorData)) :
    runLoop options fr (l₁ ++ l₂)
      = runLoop options fr l₁
        ++ runLoop options (frAfter options fr l₁) l₂ := by
  induction l₁ generalizing fr with
  | nil => rfl
  | cons p rest ih =>
      simp [runLoop, frAfter, List.foldl_cons, ih]

/-- C9: the warm-up flag is cleared only by an iteration whose wall-clock
time is a minute boundary, so as long as no iteration has hit a boundary
the flag is still set and a reading — even one below 800 hPa — never
triggers a sensor reset. -/
theorem pre_boundary_readings_exempt (options : Options)
    (inputs : List (ℤ × SensorData)) (hb : ∀ p ∈ inputs, p.1 % 60 ≠ 0)
    (t : ℤ) (d : SensorData) :
    (∀ (t' : ℤ) (d' : SensorData),
        (loopStep options true t' d').1 = false → t' % 60 = 0)
    ∧ frAfter options true inputs = true
    ∧ LoopEvent.reset ∉ runLoop options true (inputs ++ [(t, d)]) := by
  obtain ⟨hfr, hrun⟩ := runLoop_true_no_boundary options inputs hb
  refine ⟨?_, hfr, ?_⟩
  · intro t' d' hstep
    by_contra hbnd
    have : ¬(60 ∣ t') := by omega
    simp [loopStep, this] at hstep
  · rw [runLoop_append options true inputs [(t, d)], hrun, hfr]
    simp only [List.nil_append, runLoop]
    simp only [loopStep]
    split_ifs <;> simp_all

/-- Witness for C9: a 700 hPa reading at time 1, after a non-boundary
iteration, does not reset the sensor. -/
theorem pre_boundary_readings_exempt_witness :
    (∀ (t' : ℤ) (d' : SensorData),
        (loopStep optsX true t' d').1 = false → t' % 60 = 0)
    ∧ frAfter optsX true [(1, r700)] = true
    ∧ LoopEvent.reset ∉ runLoop optsX true ([(1, r700)] ++ [(2, r700)]) :=
  pre_boundary_readings_exempt optsX [(1, r700)]
    (by intro p hp; simp at hp; subst hp; decide) 2 r700

/-- C10: `username_pw_set` is invoked iff both the `username` and the
`password` keys are present in the configuration section; when exactly one
of the two is configured, no credentials at all are applied. -/
theorem credentials_iff_both_present (conf : String → Option String) :
    ((setup_credentials conf).isSome
      ↔ ((conf "username").isSome ∧ (conf "password").isSome))
    ∧ (((conf "username").isSome ↔ (conf "password") = none) →
        setup_credentials conf = none) := by
  constructor
  · unfold setup_credentials
    rcases hu : conf "username" with _ | u <;>
      rcases hp : conf "password" with _ | p <;> simp
  · intro hxor
    unfold setup_credentials
    rcases hu : conf "username" with _ | u <;>
      rcases hp : conf "password" with _ | p <;> simp_all

/-- Witness for C10: a section with a `username` but no `password` applies
no credentials. -/
theorem credentials_iff_both_present_witness :
    setup_credentials
        (fun k => if k = "username" then some "user" else none) = none :=
  (credentials_iff_both_present
      (fun k => if k = "username" then some "user" else none)).2
    (by simp)

/-- While the warm-up flag is set, an iteration emits no event: the fault
check requires `not first_read` and the boundary publish requires
`not first_read` too; at a boundary the flag is cleared. -/
theorem loopStep_true (options : Options) (t : ℤ) (d : SensorData) :
    loopStep options true t d
      = (if t % 60 = 0 then false else true, ([] : List LoopEvent)) := by
  simp only [loopStep]
  split_ifs <;> simp_all

/-- A non-warm-up, plausible reading goes through cadence evaluation:
published exactly when the time is a minute boundary. -/
theorem loopStep_false_ok (options : Options) (t : ℤ) (d : SensorData)
    (h : 800 ≤ d.pressure) :
    loopStep options false t d
      = (false,
          if t % 60 = 0 then
            [LoopEvent.publishState (publish_mqtt_data d options)]
          else []) := by
  simp only [loopStep, not_lt.mpr h, and_false, false_and, if_false,
    not_false_eq_true, true_and]
  split_ifs <;> simp_all

/-- The warm-up flag has been cleared exactly when some earlier iteration
hit a minute boundary (readings, plausible or not, are irrelevant: while
the flag is set the fault check is skipped). -/
theorem frAfter_true_eq_false_iff (options : Options)
    (l : List (ℤ × SensorData)) :
    frAfter options true l = false ↔ ∃ p ∈ l, p.1 % 60 = 0 := by
  induction l with
  | nil => simp [frAfter]
  | cons p rest ih =>
      by_cases hb : p.1 % 60 = 0
      · have hd : (60 : ℤ) ∣ p.1 := by omega
        have h1 : frAfter options true (p :: rest) = false := by
          simp only [frAfter, List.foldl_cons]
          rw [show (loopStep options true p.1 p.2).1 = false by
            rw [loopStep_true]; simp [hb, hd]]
          exact frAfter_false options rest
        rw [h1]
        exact iff_of_true rfl ⟨p, List.mem_cons_self p rest, hb⟩
      · have hd : ¬(60 : ℤ) ∣ p.1 := by omega
        have h1 : frAfter options true (p :: rest)
            = frAfter options true rest := by
          simp only [frAfter, List.foldl_cons]
          rw [show (loopStep options true p.1 p.2).1 = true by
            rw [loopStep_true]; simp [hb, hd]]
        rw [h1, ih]
        constructor
        · rintro ⟨q, hq, h⟩
          exact ⟨q, List.mem_cons_of_mem p hq, h⟩
        · rintro ⟨q, hq, h⟩
          rcases List.mem_cons.mp hq with heq | hq'
          · exact absurd (heq ▸ h) hb
          · exact ⟨q, hq', h⟩

/-- In a fault-free stretch after warm-up, the number of publishes equals
the number of iterations whose time is a minute boundary. -/
theorem publishCount_false_eq_boundaries (options : Options)
    (l : List (ℤ × SensorData)) (hp : ∀ p ∈ l, 800 ≤ p.2.pressure) :
    publishCount options false l
      = l.countP (fun p => decide (p.1 % 60 = 0)) := by
  induction l with
  | nil => rfl
  | cons p rest ih =>
      have hp0 : 800 ≤ p.2.pressure := hp p (List.mem_cons_self p rest)
      have hrest : ∀ q ∈ rest, 800 ≤ q.2.pressure := fun q hq =>
        hp q (List.mem_cons_of_mem p hq)
      have ih' := ih hrest
      simp only [publishCount, runLoop, loopStep_false_ok options p.1 p.2 hp0,
        List.countP_append, List.countP_cons] at ih' ⊢
      by_cases hb : p.1 % 60 = 0
      · simp [hb, isPublish, ih', Nat.add_comm]
      · simp [hb, isPublish, ih']

/-- Among 60 consecutive integer times there is exactly one minute
boundary. -/
theorem countP_range_sixty_boundary (t0 : ℤ) :
    (List.range 60).countP
      (fun (j : ℕ) => decide ((t0 + (j : ℤ)) % 60 = 0)) = 1 := by
  have ha0 : (0 : ℤ) ≤ (-t0) % 60 := Int.emod_nonneg _ (by norm_num)
  have ha1 : (-t0) % 60 < 60 := Int.emod_lt_of_pos _ (by norm_num)
  set a : ℕ := ((-t0) % 60).toNat with hadef
  have ha : a < 60 := by omega
  have hcong : ∀ j ∈ List.range 60,
      (decide ((t0 + (j : ℤ)) % 60 = 0) = true) ↔ ((j == a) = true) := by
    intro j hj
    have hj60 : j < 60 := List.mem_range.mp hj
    rw [decide_eq_true_eq, beq_iff_eq]
    omega
  rw [List.countP_congr hcong, ← List.count_eq_countP]
  exact List.count_eq_one_of_mem (List.nodup_range 60) (List.mem_range.mpr ha)

/-- C3: in a fault-free run polled at 1-unit intervals from start time
`t0`, iteration `i` publishes iff its wall-clock time `t0 + i` is a minute
boundary and some earlier iteration already hit a boundary (consuming the
warm-up read); consequently any 60 consecutive fault-free iterations after
warm-up publish exactly once. -/
theorem publish_cadence (options : Options) (t0 : ℤ) (N : ℕ)
    (r : ℕ → SensorData) (hp : ∀ i, 800 ≤ (r i).pressure) :
    (∀ i < N,
      (stepPublishes options
          (frAfter options true
            ((List.range i).map fun (j : ℕ) => (t0 + (j : ℤ), r j)))
          (t0 + (i : ℤ)) (r i) = true)
        ↔ ((t0 + (i : ℤ)) % 60 = 0 ∧ ∃ j < i, (t0 + (j : ℤ)) % 60 = 0))
    ∧ publishCount options false
        ((List.range 60).map fun (j : ℕ) => (t0 + (j : ℤ), r j)) = 1 := by
  constructor
  · intro i _
    have hfr := frAfter_true_eq_false_iff options
      ((List.range i).map fun (j : ℕ) => (t0 + (j : ℤ), r j))
    have hmem : (∃ p ∈ (List.range i).map fun (j : ℕ) => (t0 + (j : ℤ), r j),
        p.1 % 60 = 0) ↔ ∃ j < i, (t0 + (j : ℤ)) % 60 = 0 := by
      constructor
      · rintro ⟨p, hpmem, hmod⟩
        rcases List.mem_map.mp hpmem with ⟨j, hj, rfl⟩
        exact ⟨j, List.mem_range.mp hj, hmod⟩
      · rintro ⟨j, hj, hmod⟩
        exact ⟨(t0 + (j : ℤ), r j),
          List.mem_map.mpr ⟨j, List.mem_range.mpr hj, rfl⟩, hmod⟩
    rcases hfr' : frAfter options true
        ((List.range i).map fun (j : ℕ) => (t0 + (j : ℤ), r j)) with _ | _
    · have hsome : ∃ j < i, (t0 + (j : ℤ)) % 60 = 0 := hmem.mp (hfr.mp hfr')
      rw [stepPublishes, loopStep_false_ok options _ _ (hp i)]
      by_cases hb : (t0 + (i : ℤ)) % 60 = 0
      · exact iff_of_true (by rw [if_pos hb]; rfl) ⟨hb, hsome⟩
      · exact iff_of_false (by rw [if_neg hb]; simp) (fun h => hb h.1)
    · have hnone : ¬∃ j < i, (t0 + (j : ℤ)) % 60 = 0 := by
        intro hex
        have hfalse := hfr.mpr (hmem.mpr hex)
        rw [hfr'] at hfalse
        exact absurd hfalse (by simp)
      rw [stepPublishes, loopStep_true]
      exact iff_of_false (by simp) (fun h => hnone h.2)
  · rw [publishCount_false_eq_boundaries options _
      (by rintro p hp'
          rcases List.mem_map.mp hp' with ⟨j, _, rfl⟩
          exact hp j)]
    rw [List.countP_map]
    simpa [Function.comp] using countP_range_sixty_boundary t0

/-- Witness for C3: one fault-free iteration at time 0, plus the count of
publishes over a 60-iteration fault-free window after warm-up. -/
theorem publish_cadence_witness :
    (∀ i < 1,
      (stepPublishes optsX
          (frAfter optsX true
            ((List.range i).map fun (j : ℕ) => ((0 : ℤ) + (j : ℤ), r20)))
          ((0 : ℤ) + (i : ℤ)) r20 = true)
        ↔ (((0 : ℤ) + (i : ℤ)) % 60 = 0
            ∧ ∃ j < i, ((0 : ℤ) + (j : ℤ)) % 60 = 0))
    ∧ publishCount optsX false
        ((List.range 60).map fun (j : ℕ) => ((0 : ℤ) + (j : ℤ), r20)) = 1 :=
  publish_cadence optsX 0 1 (fun _ => r20) (fun _ => by norm_num [r20])

/-- Once the `read_loop` flag is observed `False` at the top of an
iteration, neither that iteration's body nor any later iteration runs. -/
theorem runLoopCancel_stops (options : Options) (fr : Bool)
    (pre : List (Bool × ℤ × SensorData)) (t : ℤ) (d : SensorData)
    (rest : List (Bool × ℤ × SensorData)) :
    runLoopCancel options fr (pre ++ (false, t, d) :: rest)
      = runLoopCancel options fr pre := by
  induction pre generalizing fr with
  | nil => rfl
  | cons p pre ih =>
      rcases p with ⟨flag, t', d'⟩
      by_cases hf : flag <;> simp [runLoopCancel, hf, ih]

/-- C8: when a mapped termination/interrupt/hangup signal clears the
`read_loop` flag, the first iteration that observes it runs nothing and
the loop ends: the events are exactly those of the earlier iterations,
followed by the retained "offline" availability publish and then the
disconnect, and the process exit status is 0. -/
theorem shutdown_offline_before_disconnect (s : DaemonSignal)
    (options : Options) (pre : List (Bool × ℤ × SensorData)) (t : ℤ)
    (d : SensorData) (rest : List (Bool × ℤ × SensorData)) :
    start_bme280_sensor_run options (pre ++ (signal_map s true, t, d) :: rest)
      = (runLoopCancel options true pre
          ++ [LoopEvent.publishOffline true, LoopEvent.disconnect], 0) := by
  have hs : signal_map s true = false := rfl
  rw [hs, start_bme280_sensor_run, runLoopCancel_stops]

end BME280
